import Mathlib

/-!
Shallow embedding of `src/server/mcp_agentd_server.py` (the agentd MCP
server).  Pure functions of the Python source are translated into Lean
functions; interactions with the filesystem and with tmux are made explicit
parameters (file contents as `Option String`, tmux query results as lists or
functions), mirroring the exact control flow of the source, including
Python's truthiness tests on strings and its `try/except` fallbacks
(modelled as `Option`).
-/

namespace Agentd

/-- Python truthiness of an optional string: `None` and `""` are falsy.
Used wherever the source writes `if x:` / `x or y` on a `str | None`. -/
def truthyOpt : Option String → Option String
  | some s => if s = "" then none else some s
  | none => none

/-- `sorted(pairs, key=first, reverse=True)[0]`: maximum by the integer
key; Python's sort is stable, so among equal keys the first-listed pair
wins. -/
def argmaxFirst : List (Int × String) → Option (Int × String)
  | [] => none
  | x :: xs => some (xs.foldl (fun a y => if y.1 > a.1 then y else a) x)

/-- Result of the three tmux queries `_auto_session` makes.  Each query
may fail (`none`, the `except` branches of the source); on success it
yields already-parsed `(timestamp, session-name)` lines. -/
structure AutoEnv where
  tmuxOk : Bool
  /-- `tmux list-clients -F "#\x7bclient_activity\x7d #\x7bclient_session\x7d"` -/
  clients : Option (List (Int × String))
  /-- `tmux list-sessions -F "#\x7bsession_last_attached\x7d #\x7bsession_name\x7d"` -/
  attached : Option (List (Int × String))
  /-- `tmux list-sessions -F "#\x7bsession_created\x7d #\x7bsession_name\x7d"` -/
  created : Option (List (Int × String))

/-- Tier 1 of `_auto_session`: most recently active client's session;
an empty session name does not return ( `if sess: return sess` ). -/
def clientTier (clients : Option (List (Int × String))) : Option String :=
  match clients with
  | none => none
  | some l =>
    match argmaxFirst l with
    | some p => if p.2 = "" then none else some p.2
    | none => none

/-- Tier 2 of `_auto_session`: most recently attached session, lines with
the sentinel timestamp `-1` (never attached) filtered out before ranking. -/
def attachTier (attached : Option (List (Int × String))) : Option String :=
  match attached with
  | none => none
  | some l =>
    match argmaxFirst (l.filter (fun q => q.1 != -1)) with
    | some p => some p.2
    | none => none

/-- Tier 3 of `_auto_session`: most recently created session. -/
def createdTier (created : Option (List (Int × String))) : Option String :=
  match created with
  | none => none
  | some l => (argmaxFirst l).map (fun p => p.2)

/-- `_auto_session`: ordered fallback over the three tiers; `None` when
tmux is unavailable. -/
def auto_session (e : AutoEnv) : Option String :=
  if e.tmuxOk then
    match clientTier e.clients with
    | some s => some s
    | none =>
      match attachTier e.attached with
      | some s => some s
      | none => createdTier e.created
  else none

/-- The fixed interactive-shell set of `_shell_friendly_pane_in_session`. -/
def shells : List String := ["bash", "zsh", "fish", "sh", "nu"]

/-- `cmd in shells` for a parsed `(index, command)` pane line. -/
def isShellPane (q : String × String) : Bool := decide (q.2 ∈ shells)

/-- The pane loop of `_shell_friendly_pane_in_session`: `first` records the
first listed pane index; a pane whose foreground command is in `shells`
returns immediately; otherwise the first pane is returned at the end when
truthy. -/
def sfpGo (session : String) (first : Option String) :
    List (String × String) → Option String
  | [] =>
    match first with
    | some f => if f = "" then none else some (session ++ ":" ++ f)
    | none => none
  | (idx, cmd) :: rest =>
    let first := match first with | some f => some f | none => some idx
    if cmd ∈ shells then some (session ++ ":" ++ idx)
    else sfpGo session first rest

/-- `_shell_friendly_pane_in_session`: panes are given as already-parsed
`(window.pane index, foreground command)` lines; a failed tmux query is
`none`. -/
def shell_friendly_pane_in_session (tmuxOk : Bool) (session : String)
    (panesQuery : Option (List (String × String))) : Option String :=
  if tmuxOk then
    match panesQuery with
    | none => none
    | some panes => sfpGo session none panes
  else none

/-- Python whitespace for `str.strip()`. -/
def isPyWhitespace (c : Char) : Bool :=
  c = ' ' || c = '\t' || c = '\n' || c = '\x0d' || c = '\x0b' || c = '\x0c'

/-- Python `str.strip()`: drop whitespace from both ends. -/
def pyStrip (s : String) : String :=
  String.mk (((s.toList.dropWhile isPyWhitespace).reverse.dropWhile
    isPyWhitespace).reverse)

/-- Digit run of Python `int`: all characters must be decimal digits and at
least one must be present. -/
def parseDigits (cs : List Char) : Option Nat :=
  if cs.isEmpty then none
  else if cs.all Char.isDigit then
    some (cs.foldl (fun a c => a * 10 + (c.toNat - 48)) 0)
  else none

/-- Python `int(s)` on an already-stripped string: optional sign followed
by one or more decimal digits (digit-grouping underscores and non-ASCII
digits are not modelled); failure is the `ValueError` branch. -/
def pyInt (s : String) : Option Int :=
  match s.toList with
  | '-' :: rest => (parseDigits rest).map (fun n => -(n : Int))
  | '+' :: rest => (parseDigits rest).map (fun n => (n : Int))
  | cs => (parseDigits cs).map (fun n => (n : Int))

/-- Return-code part of `_job_status`: the rc file is consulted only if it
exists; a failed read (`rcRead = none`, the `except` branch) or a failed
parse yields `none` instead of an error. -/
def job_status_rc (rcFileExists : Bool) (rcRead : Option String) : Option Int :=
  if rcFileExists then
    match rcRead with
    | none => none
    | some s => pyInt (pyStrip s)
  else none

/-- Result dictionary of `tmux_stop`. -/
structure StopResult where
  token : String
  cleaned : Bool
  error : Option String
deriving DecidableEq

/-- `tmux_stop`: the cleanup-script invocation is modelled by its exit
code and captured stdout/stderr (`run args = (rc, stdout, stderr)`, the
`subprocess.run` call with `check=True`); a non-zero exit is the
`CalledProcessError` branch, and a missing script is the
`RuntimeError("job-clean not found")` raise. -/
def tmux_stop (token : String) (removeLog : Bool) (scriptExists : Bool)
    (run : List String → Int × String × String) : Except String StopResult :=
  if scriptExists then
    let args := token :: (if removeLog then ["--remove-log"] else [])
    match run args with
    | (rc, out, err) =>
      if rc = 0 then Except.ok ⟨token, true, none⟩
      else Except.ok ⟨token, false, some (if err = "" then out else err)⟩
  else Except.error "job-clean not found"

/-- Decimal rendering of a natural number (most significant digit first),
as `strftime` prints an unpadded numeric field. -/
def decStr (n : Nat) : List Char :=
  if n = 0 then ['0'] else ((Nat.digits 10 n).reverse).map Nat.digitChar

/-- A zero-padded two-digit `strftime` field (`%m`, `%d`, `%H`, `%M`, `%S`). -/
def pad2 (n : Nat) : List Char :=
  if n < 10 then '0' :: decStr n else decStr n

/-- `datetime.now().strftime("%Y%m%d%H%M%S")` on a clock reading. -/
def strftime_ts (y mo d h mi s : Nat) : List Char :=
  decStr y ++ pad2 mo ++ pad2 d ++ pad2 h ++ pad2 mi ++ pad2 s

/-- `secrets.token_hex`: two lowercase hex digits per random byte, high
nibble first. -/
def token_hex : List Nat → List Char
  | [] => []
  | b :: bs => Nat.digitChar (b / 16) :: Nat.digitChar (b % 16) :: token_hex bs

/-- Token construction in `tmux_run`: `f"job-\x7bts\x7d-\x7btok_suffix\x7d"`
with `ts = now().strftime("%Y%m%d%H%M%S")` and
`tok_suffix = secrets.token_hex(3)`. -/
def new_token (y mo d h mi s : Nat) (bytes : List Nat) : String :=
  String.mk ('j' :: 'o' :: 'b' :: '-' ::
    (strftime_ts y mo d h mi s ++ '-' :: token_hex bytes))

/-- The character class `[0-9a-f]`. -/
def isLowerHex (c : Char) : Bool := c.isDigit || ('a' ≤ c && c ≤ 'f')

/-- Decidable matcher for `job-\d{14}-[0-9a-f]{6}` (anchored, `\d` ASCII). -/
def token_pattern_chars : List Char → Bool
  | 'j' :: 'o' :: 'b' :: '-' :: rest =>
    (rest.take 14).length == 14 && (rest.take 14).all Char.isDigit &&
    (match rest.drop 14 with
     | '-' :: hx => hx.length == 6 && hx.all isLowerHex
     | _ => false)
  | _ => false

/-- `token_pattern_chars` on a string. -/
def token_pattern_ok (t : String) : Bool := token_pattern_chars t.toList

/-- `_candidate_log_dirs`: repo-local `mcp_log`, then the environment
override when distinct, then `~/.agentd/logs`.  The Python guards
`if REPO_LOG_DIR:` / `if ENV_LOG_DIR ...:` / `if HOME_LOG_DIR:` test `Path`
truthiness, which is always true, so only the distinctness test remains. -/
def candidate_log_dirs (repoLogDir envLogDir homeLogDir : String) : List String :=
  [repoLogDir]
    ++ (if envLogDir ≠ repoLogDir then [envLogDir] else [])
    ++ [homeLogDir]

/-- Lexicographic order on code points, Python's string ordering. -/
def charListLt : List Char → List Char → Bool
  | [], [] => false
  | [], _ :: _ => true
  | _ :: _, [] => false
  | a :: as, b :: bs =>
    if a.toNat < b.toNat then true
    else if b.toNat < a.toNat then false
    else charListLt as bs

/-- `strLt a b` is `a < b` by code points. -/
def strLt (a b : String) : Bool := charListLt a.toList b.toList

/-- Insert into a sorted deduplicated list of strings. -/
def insertSorted (x : String) : List String → List String
  | [] => [x]
  | y :: ys =>
    if strLt x y then x :: y :: ys
    else if x = y then y :: ys
    else y :: insertSorted x ys

/-- Python `sorted(set(l))` for strings. -/
def sortedDedup (l : List String) : List String := l.foldr insertSorted []

/-- The filesystem state `_list_job_tokens` reads: whether the state
directory exists, the stems of its `*.rc` files, and per candidate log
directory whether it exists and the stems of its `*.log` files. -/
structure JobFS where
  agentdDirExists : Bool
  rcStems : List String
  logDirExists : String → Bool
  logStems : String → List String

/-- `_list_job_tokens`. -/
def list_job_tokens (repoLogDir envLogDir homeLogDir : String)
    (fs : JobFS) : List String :=
  if fs.agentdDirExists then
    sortedDedup (fs.rcStems ++
      ((candidate_log_dirs repoLogDir envLogDir homeLogDir).map
        (fun d => if fs.logDirExists d then fs.logStems d else [])).flatten)
  else []

/-- The claim's description of `listTokens`, written from the spec's words:
the lexicographically sorted, deduplicated union of rc-file stems in the
state directory and log-file stems across every existing candidate log
directory (with no condition on the state directory's own existence). -/
def list_tokens_claimed (repoLogDir envLogDir homeLogDir : String)
    (fs : JobFS) : List String :=
  sortedDedup (fs.rcStems ++
    ((candidate_log_dirs repoLogDir envLogDir homeLogDir).map
      (fun d => if fs.logDirExists d then fs.logStems d else [])).flatten)

/-- A state where the state directory is absent but a candidate log
directory holds `job-c.log`. -/
def noStateDirFS : JobFS :=
  { agentdDirExists := false
    rcStems := []
    logDirExists := fun d => d = "/repo/mcp_log"
    logStems := fun d => if d = "/repo/mcp_log" then ["job-c"] else [] }

/-- A state matching the spec's example: rc stems `{job-a, job-b}` and
log stems `{job-b, job-c}`. -/
def exampleFS : JobFS :=
  { agentdDirExists := true
    rcStems := ["job-a", "job-b"]
    logDirExists := fun d => d = "/repo/mcp_log"
    logStems := fun d => if d = "/repo/mcp_log" then ["job-b", "job-c"] else [] }

/-- `_read_target`: `None` when the file is absent; otherwise the stripped
content, with empty results mapped to `None` (`return t or None`). -/
def read_target (file : Option String) : Option String :=
  match file with
  | none => none
  | some t =>
    if pyStrip t = "" then none else some (pyStrip t)

/-- The portion of a string before the first `:`
(`t.split(":", 1)[0]`). -/
def splitColonHeadChars : List Char → List Char
  | [] => []
  | c :: cs => if c = ':' then [] else c :: splitColonHeadChars cs

/-- `t.split(":", 1)[0]` on a string. -/
def splitColonHead (t : String) : String := String.mk (splitColonHeadChars t.toList)

/-- `":" in t`. -/
def containsColon (t : String) : Bool := t.toList.contains ':'

/-- Split a character list at a separator, Python `str.split(sep)`. -/
def splitChars (sep : Char) : List Char → List (List Char)
  | [] => [[]]
  | c :: cs =>
    let r := splitChars sep cs
    if c = sep then [] :: r
    else
      match r with
      | g :: gs => (c :: g) :: gs
      | [] => [[c]]

/-- `pathlib.Path(p).name`: the last nonempty `/`-separated component. -/
def pathBasename (p : String) : String :=
  match ((splitChars '/' p.toList).filter (fun g => g ≠ [])).getLast? with
  | some g => String.mk g
  | none => ""

/-- Everything `tmux_run` consumes from the ambient process state: tmux
query outcomes (as functions from targets/sessions to results, `none`
modelling a failed command), file contents, configuration values with their
environment defaults already applied, the startup-detected `SELF_PANE`, the
clock reading, and the random bytes drawn by `secrets.token_hex(3)`. -/
structure RunEnv where
  autoEnv : AutoEnv
  /-- content of `~/.agentd/agent_pane`, `none` when absent -/
  savedFile : Option String
  /-- `_tmux_pane_exists` -/
  paneExists : String → Bool
  /-- `_active_pane_in_session` -/
  activePane : String → Option String
  /-- `SELF_PANE` from `_detect_self_pane` at startup -/
  selfPane : Option String
  /-- `SESSION` (`AGENTD_SESSION`, default `"agentd"`) -/
  sessionCfg : String
  /-- `CLI_WINDOW` (`AGENTD_CLI_WINDOW`, default `"cli"`) -/
  cliWindowCfg : String
  /-- whether the `job-run` script exists -/
  jobRunExists : Bool
  /-- `tmux display-message ... pane_current_path` for a target pane -/
  paneCwd : String → Option String
  repoLogDir : String
  envLogDir : String
  homeLogDir : String
  /-- `AGENTD_EXEC_SESSION_MODE` with its default `"self"` applied -/
  execSessionMode : String
  /-- `AGENTD_EXEC_SESSION` -/
  execSessionEnv : Option String
  /-- `AGENTD_NOTIFY_FORCE_SHELL` with its default `"0"` applied -/
  notifyForceShell : String
  /-- pane list per session for `_shell_friendly_pane_in_session` -/
  panesInSession : String → Option (List (String × String))
  year : Nat
  month : Nat
  day : Nat
  hour : Nat
  minute : Nat
  second : Nat
  randBytes : List Nat

/-- The heuristic target chain of `tmux_run` (its `else` branch): the saved
pane when it still exists, else the active pane of the auto session, else
the server's own pane, else the static default
`SESSION:CLI_WINDOW.0`; string truthiness as in the source. -/
def resolve_pane_target (e : RunEnv) : String :=
  let pt : Option String :=
    match read_target e.savedFile with
    | some sv =>
      if e.paneExists sv then some sv
      else
        match truthyOpt (auto_session e.autoEnv) with
        | some a => e.activePane a
        | none => none
    | none =>
      match truthyOpt (auto_session e.autoEnv) with
      | some a => e.activePane a
      | none => none
  let pt2 : Option String :=
    match truthyOpt pt with
    | some x => some x
    | none => truthyOpt e.selfPane
  match pt2 with
  | some x => x
  | none => e.sessionCfg ++ ":" ++ e.cliWindowCfg ++ ".0"

/-- Target-pane selection and `session_name` in `tmux_run`: tier 1 the
explicit target verbatim, tier 2 the explicit session with window/pane
defaults, otherwise `resolve_pane_target`. -/
def run_target_and_session (e : RunEnv) (target session window : Option String)
    (pane : Option Int) : String × String :=
  match truthyOpt target with
  | some tv =>
    let sn :=
      if containsColon tv then splitColonHead tv
      else
        match truthyOpt session with
        | some sv => sv
        | none => e.sessionCfg
    (tv, sn)
  | none =>
    match truthyOpt session with
    | some sv =>
      let wv := match truthyOpt window with | some x => x | none => e.cliWindowCfg
      let pv := match pane with | some x => x | none => 0
      (sv ++ ":" ++ wv ++ "." ++ toString pv, sv)
    | none =>
      let pt := resolve_pane_target e
      (pt, splitColonHead pt)

/-- The pane-cwd log-directory guess in `tmux_run`: the target pane's
current path suffixed with `/mcp_log`; `none` when the target is falsy,
the tmux query failed, or it returned an empty path. -/
def log_dir_guess (e : RunEnv) (targetPane : String) : Option String :=
  if targetPane = "" then none
  else
    match e.paneCwd targetPane with
    | some cwd => if cwd = "" then none else some (cwd ++ "/mcp_log")
    | none => none

/-- `base_log_dir = log_dir_guess or (str(REPO_LOG_DIR) if REPO_LOG_DIR
else None) or str(HOME_LOG_DIR)`; `if REPO_LOG_DIR:` tests `Path`
truthiness, which is always true, leaving string truthiness of the
rendered path. -/
def predict_base_log_dir (repoLogDir homeLogDir : String)
    (guess : Option String) : String :=
  match truthyOpt guess with
  | some g => g
  | none => if repoLogDir = "" then homeLogDir else repoLogDir

/-- `_job_log_path` (the spec's `findExisting`): the first candidate
directory containing `<token>.log`; if none does, a path under the first
candidate directory (`dirs[0] if dirs else HOME_LOG_DIR`). -/
def job_log_path (repoLogDir envLogDir homeLogDir : String)
    (logFileExists : String → String → Bool) (token : String) : String :=
  let dirs := candidate_log_dirs repoLogDir envLogDir homeLogDir
  match dirs.find? (fun d => logFileExists d token) with
  | some d => d ++ "/" ++ token ++ ".log"
  | none => dirs.headD homeLogDir ++ "/" ++ token ++ ".log"

/-- Execution-session choice in `tmux_run` (`self` / `fixed` / per-repo
default). -/
def exec_session_name (e : RunEnv) (sessionName targetPane : String) : String :=
  if e.execSessionMode = "self" then sessionName
  else if e.execSessionMode = "fixed" then e.execSessionEnv.getD "agentexec"
  else
    let base :=
      if targetPane = "" then "exec"
      else
        match e.paneCwd targetPane with
        | some cwd => if cwd = "" then "exec" else pathBasename cwd
        | none => "exec"
    e.execSessionEnv.getD ("exec-" ++ base)

/-- Notification-pane choice in `tmux_run`: by default the target pane;
when `AGENTD_NOTIFY_FORCE_SHELL=1`, rerouted to a shell-friendly pane of
the target's session (falling back to the target pane). -/
def notify_pane (e : RunEnv) (targetPane : String) : Option String :=
  if targetPane = "" then none
  else if e.notifyForceShell = "1" then
    let sess := splitColonHead targetPane
    match truthyOpt (shell_friendly_pane_in_session e.autoEnv.tmuxOk sess
        (e.panesInSession sess)) with
    | some alt => some alt
    | none => some targetPane
  else some targetPane

/-- The descriptor dictionary returned by `tmux_run`, plus the command
string handed to the spawned runner. -/
structure RunResult where
  token : String
  session : String
  execSession : String
  target : String
  notifyPane : Option String
  logPath : String
  spawnedCmd : String
  attach : String
  tailCmd : String
  insideCmd : String

/-- The successful body of `tmux_run` after the `job-run` existence
check. -/
def tmux_run_result (e : RunEnv) (cmd : String)
    (target session window : Option String) (pane : Option Int) : RunResult :=
  let token := new_token e.year e.month e.day e.hour e.minute e.second e.randBytes
  let ts := run_target_and_session e target session window pane
  let targetPane := ts.1
  let sessionName := ts.2
  let baseLogDir := predict_base_log_dir e.repoLogDir e.homeLogDir
    (log_dir_guess e targetPane)
  let logPath := baseLogDir ++ "/" ++ token ++ ".log"
  let execSess := exec_session_name e sessionName targetPane
  { token := token
    session := sessionName
    execSession := execSess
    target := targetPane
    notifyPane := notify_pane e targetPane
    logPath := logPath
    spawnedCmd := cmd
    attach := "tmux attach -t \x27" ++ execSess ++ "\x27 \\; select-window -t \x27"
      ++ execSess ++ ":" ++ token ++ "\x27"
    tailCmd := "tail -f \x27" ++ logPath ++ "\x27"
    insideCmd := "tmux select-window -t \x27" ++ execSess ++ ":" ++ token ++ "\x27" }

/-- `tmux_run`: raises `RuntimeError` when `job-run` is missing; otherwise
resolves everything, spawns `job-run` detached (the `Popen` call — reaching
`Except.ok` is the spawn) and returns the descriptor. -/
def tmux_run (e : RunEnv) (cmd : String) (target session window : Option String)
    (pane : Option Int) : Except String RunResult :=
  if e.jobRunExists then Except.ok (tmux_run_result e cmd target session window pane)
  else Except.error "job-run not found"

/-- The resolved target of a run outcome. -/
def run_target_of : Except String RunResult → Option String
  | Except.ok r => some r.target
  | Except.error _ => none

/-- The predicted log path of a run outcome. -/
def run_log_path_of : Except String RunResult → Option String
  | Except.ok r => some r.logPath
  | Except.error _ => none

/-- A concrete environment in which tmux reports no clients, sessions or
panes, nothing is saved, and the runner script is present. -/
def ghostEnv : RunEnv :=
  { autoEnv := ⟨true, none, none, none⟩
    savedFile := none
    paneExists := fun _ => false
    activePane := fun _ => none
    selfPane := none
    sessionCfg := "agentd"
    cliWindowCfg := "cli"
    jobRunExists := true
    paneCwd := fun _ => none
    repoLogDir := "/repo/mcp_log"
    envLogDir := "/repo/mcp_log"
    homeLogDir := "/home/u/.agentd/logs"
    execSessionMode := "self"
    execSessionEnv := none
    notifyForceShell := "0"
    panesInSession := fun _ => none
    year := 2025
    month := 10
    day := 12
    hour := 3
    minute := 4
    second := 5
    randBytes := [26, 255, 0] }

/-- Like `ghostEnv`, but the target pane's working directory resolves to
`/work/proj`. -/
def cwdEnv : RunEnv :=
  { ghostEnv with paneCwd := fun _ => some "/work/proj" }

/-- C3: `autoSession` evaluates three tiers in order and stops at the first
tier that yields any result: (1) the session owning the client with the
greatest activity timestamp; (2) the session with the greatest last-attached
timestamp, with never-attached sentinel entries excluded rather than ranked
as oldest; (3) the session with the greatest created timestamp.  In
particular, when any clients exist, the most recently active client's
session is returned no matter which session was attached more recently. -/
theorem auto_session_tier_order (e : AutoEnv) (hok : e.tmuxOk = true) :
    (∀ cl p, e.clients = some cl → argmaxFirst cl = some p → p.2 ≠ "" →
        auto_session e = some p.2)
    ∧ (clientTier e.clients = none →
        ∀ al p, e.attached = some al →
          argmaxFirst (al.filter (fun q => q.1 != -1)) = some p →
          auto_session e = some p.2)
    ∧ (clientTier e.clients = none →
        ∀ al, e.attached = some al → (∀ q ∈ al, q.1 = -1) →
          auto_session e = createdTier e.created) := by
  refine ⟨?_, ?_, ?_⟩
  · intro cl p hcl hmax hne
    simp [auto_session, hok, clientTier, hcl, hmax, hne]
  · intro h1 al p hal hmax
    simp [auto_session, hok, h1, attachTier, hal, hmax]
  · intro h1 al hal hsent
    have hfilt : al.filter (fun q => q.1 != -1) = [] := by
      rw [List.filter_eq_nil_iff]
      intro q hq
      simp [hsent q hq]
    simp [auto_session, hok, h1, attachTier, hal, hfilt, argmaxFirst]

/-- Witness for C3 at the spec's own example: clients with activity
`{A:10, B:20}` and a session `C` attached later; result is `B`. -/
theorem auto_session_tier_order_witness :
    auto_session ⟨true, some [((10 : Int), "A"), ((20 : Int), "B")],
        some [((100 : Int), "C")], none⟩ = some "B" :=
  (auto_session_tier_order _ rfl).1 _ ((20 : Int), "B") rfl (by decide) (by decide)

theorem find?_shell_cons (idx cmd : String) (rest : List (String × String)) :
    (((idx, cmd) :: rest).find? isShellPane)
      = if cmd ∈ shells then some (idx, cmd) else rest.find? isShellPane := by
  by_cases hm : cmd ∈ shells <;> simp [List.find?_cons, isShellPane, hm]

theorem sfpGo_find_some (session : String) (f : Option String)
    (l : List (String × String)) (p : String × String)
    (h : l.find? isShellPane = some p) :
    sfpGo session f l = some (session ++ ":" ++ p.1) := by
  induction l generalizing f with
  | nil => simp at h
  | cons x rest ih =>
    match x with
    | (idx, cmd) =>
      rw [find?_shell_cons] at h
      by_cases hm : cmd ∈ shells
      · rw [if_pos hm] at h
        cases h
        simp [sfpGo, hm]
      · rw [if_neg hm] at h
        simp only [sfpGo, hm, ite_false]
        exact ih _ h

theorem sfpGo_find_none (session : String) (f : String)
    (l : List (String × String))
    (h : l.find? isShellPane = none) :
    sfpGo session (some f) l
      = if f = "" then none else some (session ++ ":" ++ f) := by
  induction l with
  | nil => simp [sfpGo]
  | cons x rest ih =>
    match x with
    | (idx, cmd) =>
      rw [find?_shell_cons] at h
      by_cases hm : cmd ∈ shells
      · rw [if_pos hm] at h; cases h
      · rw [if_neg hm] at h
        simp only [sfpGo, hm, ite_false]
        exact ih h

/-- C7: for every session, `shellFriendlyPane` returns the first listed
pane whose foreground command is in `{bash, zsh, fish, sh, nu}`; if no
pane's command is in that set, it returns the first listed pane. -/
theorem shell_friendly_pane_spec (session : String)
    (panes : List (String × String)) (hne : ∀ q ∈ panes, q.1 ≠ "") :
    (∀ p, panes.find? isShellPane = some p →
        shell_friendly_pane_in_session true session (some panes)
          = some (session ++ ":" ++ p.1))
    ∧ (panes.find? isShellPane = none →
        shell_friendly_pane_in_session true session (some panes)
          = panes.head?.map (fun q => session ++ ":" ++ q.1)) := by
  constructor
  · intro p hp
    simp only [shell_friendly_pane_in_session, if_true]
    exact sfpGo_find_some session none panes p hp
  · intro hnone
    simp only [shell_friendly_pane_in_session, if_true]
    cases panes with
    | nil => simp [sfpGo]
    | cons x rest =>
      match x with
      | (idx, cmd) =>
        rw [find?_shell_cons] at hnone
        by_cases hm : cmd ∈ shells
        · rw [if_pos hm] at hnone; cases hnone
        · rw [if_neg hm] at hnone
          simp only [sfpGo, hm, ite_false]
          rw [sfpGo_find_none session idx rest hnone]
          have hi : idx ≠ "" := hne (idx, cmd) (by simp)
          simp [hi]

/-- Witness for C7 at the spec's own example: panes
`[(0,"vim"), (1,"bash")]` yield pane index 1, not the first-listed pane. -/
theorem shell_friendly_pane_spec_witness :
    shell_friendly_pane_in_session true "s" (some [("0", "vim"), ("1", "bash")])
      = some "s:1" :=
  (shell_friendly_pane_spec "s" [("0", "vim"), ("1", "bash")] (by decide)).1
    ("1", "bash") (by decide)

/-- C8: the status operation reads the return-code file as a trimmed
integer, and any read or parse failure yields a null return code rather
than an error: content `"0\n"` gives return code 0 and content `"abc"`
gives a null return code. -/
theorem job_status_rc_spec :
    (∀ s, job_status_rc true (some s) = pyInt (pyStrip s))
    ∧ job_status_rc true none = none
    ∧ job_status_rc false none = none
    ∧ job_status_rc true (some "0\n") = some 0
    ∧ job_status_rc true (some "abc") = none := by
  refine ⟨fun s => rfl, rfl, rfl, ?_, ?_⟩ <;> decide

/-- C9: the stop operation delegates to the external cleanup script; when
the script exits non-zero it returns `{token, cleaned: false, error:
captured diagnostics}` instead of raising, on success `{token, cleaned:
true}`, and no outcome of the script invocation propagates as an
exception. -/
theorem tmux_stop_spec (token : String) (removeLog : Bool)
    (run : List String → Int × String × String) :
    (∃ r, tmux_stop token removeLog true run = Except.ok r ∧ r.token = token)
    ∧ (∀ out err,
        run (token :: (if removeLog then ["--remove-log"] else [])) = (0, out, err) →
        tmux_stop token removeLog true run = Except.ok ⟨token, true, none⟩)
    ∧ (∀ rc out err,
        run (token :: (if removeLog then ["--remove-log"] else [])) = (rc, out, err) →
        rc ≠ 0 →
        tmux_stop token removeLog true run
          = Except.ok ⟨token, false, some (if err = "" then out else err)⟩) := by
  refine ⟨?_, ?_, ?_⟩
  · match h : run (token :: (if removeLog then ["--remove-log"] else [])) with
    | (rc, out, err) =>
      by_cases hrc : rc = 0
      · exact ⟨⟨token, true, none⟩, by simp [tmux_stop, h, hrc], rfl⟩
      · exact ⟨⟨token, false, some (if err = "" then out else err)⟩,
          by simp [tmux_stop, h, hrc], rfl⟩
  · intro out err h
    simp [tmux_stop, h]
  · intro rc out err h hrc
    simp [tmux_stop, h, hrc]

/-- Witness for C9: a script exiting with code 2 and stderr `"e"` yields
`cleaned = false` with the captured diagnostics, not an exception. -/
theorem tmux_stop_spec_witness :
    tmux_stop "t1" false true (fun _ => ((2 : Int), "o", "e"))
      = Except.ok ⟨"t1", false, some "e"⟩ :=
  (tmux_stop_spec "t1" false (fun _ => ((2 : Int), "o", "e"))).2.2 2 "o" "e" rfl
    (by decide)

theorem digitChar_isDigit {d : Nat} (hd : d < 10) :
    (Nat.digitChar d).isDigit = true := by
  interval_cases d <;> decide

theorem digitChar_isLowerHex {d : Nat} (hd : d < 16) :
    isLowerHex (Nat.digitChar d) = true := by
  interval_cases d <;> decide

theorem decStr_all_digit (n : Nat) : (decStr n).all Char.isDigit = true := by
  unfold decStr
  split
  · decide
  · rw [List.all_eq_true]
    intro c hc
    rw [List.mem_map] at hc
    obtain ⟨d, hd, rfl⟩ := hc
    rw [List.mem_reverse] at hd
    exact digitChar_isDigit (Nat.digits_lt_base (by norm_num) hd)

theorem decStr_length {n : Nat} (hn : n ≠ 0) :
    (decStr n).length = Nat.log 10 n + 1 := by
  unfold decStr
  rw [if_neg hn, List.length_map, List.length_reverse,
    Nat.digits_len _ _ (by norm_num) hn]

theorem decStr_len4 {y : Nat} (h1 : 1000 ≤ y) (h2 : y < 10000) :
    (decStr y).length = 4 := by
  have hy : y ≠ 0 := by omega
  rw [decStr_length hy]
  have h3 : (10 : Nat) ^ 3 ≤ y := by norm_num; omega
  have h4 : y < 10 ^ (3 + 1) := by norm_num; omega
  have := Nat.log_eq_of_pow_le_of_lt_pow h3 h4
  omega

theorem decStr_len1 {n : Nat} (hn : n < 10) : (decStr n).length = 1 := by
  by_cases h0 : n = 0
  · subst h0; rfl
  · rw [decStr_length h0]
    have : Nat.log 10 n = 0 := Nat.log_eq_zero_iff.mpr (Or.inl hn)
    omega

theorem decStr_len2 {n : Nat} (h1 : 10 ≤ n) (hn : n < 100) :
    (decStr n).length = 2 := by
  have h0 : n ≠ 0 := by omega
  rw [decStr_length h0]
  have h3 : (10 : Nat) ^ 1 ≤ n := by simpa using h1
  have h4 : n < 10 ^ (1 + 1) := by norm_num; omega
  have := Nat.log_eq_of_pow_le_of_lt_pow h3 h4
  omega

theorem pad2_length {n : Nat} (hn : n < 100) : (pad2 n).length = 2 := by
  unfold pad2
  by_cases h : n < 10
  · rw [if_pos h, List.length_cons, decStr_len1 h]
  · rw [if_neg h, decStr_len2 (by omega) hn]

theorem pad2_all_digit (n : Nat) : (pad2 n).all Char.isDigit = true := by
  unfold pad2
  split
  · rw [List.all_cons, decStr_all_digit]; decide
  · exact decStr_all_digit n

theorem token_hex_length (bytes : List Nat) :
    (token_hex bytes).length = 2 * bytes.length := by
  induction bytes with
  | nil => rfl
  | cons b bs ih => simp [token_hex, ih]; omega

theorem token_hex_all_hex (bytes : List Nat) (hb : ∀ b ∈ bytes, b < 256) :
    (token_hex bytes).all isLowerHex = true := by
  induction bytes with
  | nil => rfl
  | cons b bs ih =>
    have hb256 : b < 256 := hb b (by simp)
    have h1 : b / 16 < 16 := by omega
    have h2 : b % 16 < 16 := Nat.mod_lt _ (by norm_num)
    rw [token_hex, List.all_cons, List.all_cons,
      digitChar_isLowerHex h1, digitChar_isLowerHex h2,
      ih (fun x hx => hb x (by simp [hx]))]
    rfl

theorem take_len_append {α : Type} (l₁ l₂ : List α) :
    (l₁ ++ l₂).take l₁.length = l₁ := by
  induction l₁ with
  | nil => rfl
  | cons a l ih => simp [ih]

theorem drop_len_append {α : Type} (l₁ l₂ : List α) :
    (l₁ ++ l₂).drop l₁.length = l₂ := by
  induction l₁ with
  | nil => rfl
  | cons a l ih => simp [ih]

/-- C6: every token produced by a launch matches `job-\d{14}-[0-9a-f]{6}`:
the literal prefix `job-`, a 14-digit second-resolution timestamp, a dash,
and 6 lowercase hexadecimal characters rendered from the random bytes. -/
theorem new_token_format (y mo d h mi s : Nat) (bytes : List Nat)
    (hy1 : 1000 ≤ y) (hy2 : y < 10000) (hmo : mo < 100) (hd : d < 100)
    (hh : h < 100) (hmi : mi < 100) (hs : s < 100)
    (hlen : bytes.length = 3) (hb : ∀ b ∈ bytes, b < 256) :
    token_pattern_ok (new_token y mo d h mi s bytes) = true := by
  have hts_len : (strftime_ts y mo d h mi s).length = 14 := by
    simp [strftime_ts, decStr_len4 hy1 hy2, pad2_length hmo, pad2_length hd,
      pad2_length hh, pad2_length hmi, pad2_length hs]
  have hts_dig : (strftime_ts y mo d h mi s).all Char.isDigit = true := by
    simp only [strftime_ts, List.all_append, decStr_all_digit,
      pad2_all_digit, Bool.and_self]
  have h1 : (strftime_ts y mo d h mi s ++ '-' :: token_hex bytes).take 14
      = strftime_ts y mo d h mi s := by
    rw [← hts_len]; exact take_len_append _ _
  have h2 : (strftime_ts y mo d h mi s ++ '-' :: token_hex bytes).drop 14
      = '-' :: token_hex bytes := by
    rw [← hts_len]; exact drop_len_append _ _
  show token_pattern_chars ('j' :: 'o' :: 'b' :: '-' ::
    (strftime_ts y mo d h mi s ++ '-' :: token_hex bytes)) = true
  simp only [token_pattern_chars, h1, h2, hts_len, hts_dig,
    token_hex_length, hlen, token_hex_all_hex bytes hb]
  decide

/-- Witness for C6 at a concrete clock reading and concrete random bytes. -/
theorem new_token_format_witness :
    token_pattern_ok (new_token 2025 10 12 3 4 5 [26, 255, 0]) = true :=
  new_token_format 2025 10 12 3 4 5 [26, 255, 0] (by norm_num) (by norm_num)
    (by norm_num) (by norm_num) (by norm_num) (by norm_num) (by norm_num)
    rfl (by decide)

/-- Counterexample to C4 as stated: when the state directory does not
exist, `_list_job_tokens` returns `[]` even though an existing candidate
log directory contains `job-c.log`, so the result is not the claimed
union. -/
theorem list_job_tokens_counterexample :
    list_job_tokens "/repo/mcp_log" "/repo/mcp_log" "/home/logs" noStateDirFS = []
    ∧ list_tokens_claimed "/repo/mcp_log" "/repo/mcp_log" "/home/logs" noStateDirFS
        = ["job-c"]
    ∧ list_job_tokens "/repo/mcp_log" "/repo/mcp_log" "/home/logs" noStateDirFS
        ≠ list_tokens_claimed "/repo/mcp_log" "/repo/mcp_log" "/home/logs"
            noStateDirFS := by
  refine ⟨rfl, rfl, ?_⟩
  decide

/-- C4 (amended): provided the state directory exists, `listTokens` returns
the lexicographically sorted, deduplicated union of the rc-file stems and
the log-file stems of every existing candidate log directory; when the
state directory does not exist it returns the empty list regardless of log
files. -/
theorem list_job_tokens_amended (repoLogDir envLogDir homeLogDir : String)
    (fs : JobFS) :
    (fs.agentdDirExists = true →
      list_job_tokens repoLogDir envLogDir homeLogDir fs
        = list_tokens_claimed repoLogDir envLogDir homeLogDir fs)
    ∧ (fs.agentdDirExists = false →
      list_job_tokens repoLogDir envLogDir homeLogDir fs = []) := by
  constructor
  · intro h
    simp [list_job_tokens, list_tokens_claimed, h]
  · intro h
    simp [list_job_tokens, h]

/-- Witness for the amended C4 at the spec's own example: the result is
`[job-a, job-b, job-c]`. -/
theorem list_job_tokens_amended_witness :
    list_job_tokens "/repo/mcp_log" "/repo/mcp_log" "/home/logs" exampleFS
      = list_tokens_claimed "/repo/mcp_log" "/repo/mcp_log" "/home/logs" exampleFS
    ∧ list_job_tokens "/repo/mcp_log" "/repo/mcp_log" "/home/logs" exampleFS
      = ["job-a", "job-b", "job-c"] :=
  ⟨(list_job_tokens_amended "/repo/mcp_log" "/repo/mcp_log" "/home/logs"
      exampleFS).1 rfl, by rfl⟩

theorem read_target_ne_empty {f : Option String} {sv : String}
    (h : read_target f = some sv) : sv ≠ "" := by
  match f with
  | none => simp [read_target] at h
  | some t =>
    simp only [read_target] at h
    by_cases he : pyStrip t = ""
    · rw [if_pos he] at h; cases h
    · rw [if_neg he] at h
      cases h
      exact he

theorem resolve_pane_target_saved (e : RunEnv) (sv : String)
    (hsv : read_target e.savedFile = some sv) (hex : e.paneExists sv = true) :
    resolve_pane_target e = sv := by
  have hne : sv ≠ "" := read_target_ne_empty hsv
  simp [resolve_pane_target, hsv, hex, truthyOpt, hne]

theorem truthyOpt_some_ne {x : String} (hx : x ≠ "") :
    truthyOpt (some x) = some x := by
  simp [truthyOpt, hx]

theorem resolve_pane_target_auto (e : RunEnv)
    (hsaved : ∀ sv, read_target e.savedFile = some sv → e.paneExists sv = false)
    (a x : String) (ha : truthyOpt (auto_session e.autoEnv) = some a)
    (hx : e.activePane a = some x) (hxne : x ≠ "") :
    resolve_pane_target e = x := by
  cases hsv : read_target e.savedFile with
  | none =>
    simp only [resolve_pane_target, hsv, ha, hx, truthyOpt_some_ne hxne]
  | some sv =>
    have hf := hsaved sv hsv
    simp only [resolve_pane_target, hsv, hf, Bool.false_eq_true, ite_false,
      ha, hx, truthyOpt_some_ne hxne]

theorem resolve_pane_target_noauto (e : RunEnv)
    (hsaved : ∀ sv, read_target e.savedFile = some sv → e.paneExists sv = false)
    (hauto : truthyOpt ((truthyOpt (auto_session e.autoEnv)).bind e.activePane)
      = none) :
    resolve_pane_target e
      = (match truthyOpt e.selfPane with
         | some sp => sp
         | none => e.sessionCfg ++ ":" ++ e.cliWindowCfg ++ ".0") := by
  have hbind : ((truthyOpt (auto_session e.autoEnv)).bind e.activePane)
      = (match truthyOpt (auto_session e.autoEnv) with
         | some a => e.activePane a
         | none => none) := by
    cases truthyOpt (auto_session e.autoEnv) <;> rfl
  cases hsv : read_target e.savedFile with
  | none =>
    simp only [resolve_pane_target, hsv]
    rw [← hbind, hauto]
  | some sv =>
    have hf := hsaved sv hsv
    simp only [resolve_pane_target, hsv, hf, Bool.false_eq_true, ite_false]
    rw [← hbind, hauto]

theorem run_target_of_run (e : RunEnv) (cmd : String) (t s w : Option String)
    (p : Option Int) (hjob : e.jobRunExists = true) :
    run_target_of (tmux_run e cmd t s w p)
      = some (run_target_and_session e t s w p).1 := by
  simp [tmux_run, hjob, run_target_of, tmux_run_result]

/-- C2: the target pane of a run is chosen by a strict priority chain, the
first satisfiable tier winning: (1) the explicit target verbatim; (2) the
explicit session with the window defaulting to the configured CLI window
and the pane defaulting to 0; (3) the saved default target when present
and still referencing an existing pane; (4) the auto-session heuristic
combined with that session's active pane; (5) the server's own startup
pane; (6) the static default `SESSION:CLI_WINDOW.0`. -/
theorem run_target_priority (e : RunEnv) (cmd : String)
    (t s w : Option String) (p : Option Int) (hjob : e.jobRunExists = true) :
    (∀ tv, truthyOpt t = some tv →
      run_target_of (tmux_run e cmd t s w p) = some tv)
    ∧ (truthyOpt t = none → ∀ sv, truthyOpt s = some sv →
      run_target_of (tmux_run e cmd t s w p)
        = some (sv ++ ":"
            ++ (match truthyOpt w with | some x => x | none => e.cliWindowCfg)
            ++ "." ++ toString (p.getD 0)))
    ∧ (truthyOpt t = none → truthyOpt s = none →
        ∀ sv, read_target e.savedFile = some sv → e.paneExists sv = true →
      run_target_of (tmux_run e cmd t s w p) = some sv)
    ∧ (truthyOpt t = none → truthyOpt s = none →
        (∀ sv, read_target e.savedFile = some sv → e.paneExists sv = false) →
        ∀ a x, truthyOpt (auto_session e.autoEnv) = some a →
          e.activePane a = some x → x ≠ "" →
      run_target_of (tmux_run e cmd t s w p) = some x)
    ∧ (truthyOpt t = none → truthyOpt s = none →
        (∀ sv, read_target e.savedFile = some sv → e.paneExists sv = false) →
        truthyOpt ((truthyOpt (auto_session e.autoEnv)).bind e.activePane)
          = none →
        ∀ sp, truthyOpt e.selfPane = some sp →
      run_target_of (tmux_run e cmd t s w p) = some sp)
    ∧ (truthyOpt t = none → truthyOpt s = none →
        (∀ sv, read_target e.savedFile = some sv → e.paneExists sv = false) →
        truthyOpt ((truthyOpt (auto_session e.autoEnv)).bind e.activePane)
          = none →
        truthyOpt e.selfPane = none →
      run_target_of (tmux_run e cmd t s w p)
        = some (e.sessionCfg ++ ":" ++ e.cliWindowCfg ++ ".0")) := by
  have hof := run_target_of_run e cmd t s w p hjob
  refine ⟨?_, ?_, ?_, ?_, ?_, ?_⟩
  · intro tv ht
    rw [hof]
    simp [run_target_and_session, ht]
  · intro ht sv hs
    rw [hof]
    simp only [run_target_and_session, ht, hs]
    cases p <;> rfl
  · intro ht hs sv hsv hex
    rw [hof]
    simp only [run_target_and_session, ht, hs]
    rw [resolve_pane_target_saved e sv hsv hex]
  · intro ht hs hsaved a x ha hx hxne
    rw [hof]
    simp only [run_target_and_session, ht, hs]
    rw [resolve_pane_target_auto e hsaved a x ha hx hxne]
  · intro ht hs hsaved hauto sp hsp
    rw [hof]
    simp only [run_target_and_session, ht, hs]
    rw [resolve_pane_target_noauto e hsaved hauto, hsp]
  · intro ht hs hsaved hauto hsp
    rw [hof]
    simp only [run_target_and_session, ht, hs]
    rw [resolve_pane_target_noauto e hsaved hauto, hsp]

/-- Witness for C2 at tier 1: an explicit target is taken verbatim. -/
theorem run_target_priority_witness :
    run_target_of (tmux_run ghostEnv "echo hi" (some "dev:2.1") none none none)
      = some "dev:2.1" :=
  (run_target_priority ghostEnv "echo hi" (some "dev:2.1") none none none
    rfl).1 "dev:2.1" (by decide)

/-- Counterexample to C1 as stated: with an explicit target `ghost:0.0`
that exists in no pane (`paneExists` is constantly false), the launch does
not fail with an invalid-target error: `tmux_run` spawns the runner
(reaches `Except.ok`) and its descriptor carries the non-existent target
verbatim. -/
theorem run_explicit_target_not_validated :
    ghostEnv.paneExists "ghost:0.0" = false
    ∧ run_target_of (tmux_run ghostEnv "sleep 1" (some "ghost:0.0") none none none)
        = some "ghost:0.0"
    ∧ ∀ msg, tmux_run ghostEnv "sleep 1" (some "ghost:0.0") none none none
        ≠ Except.error msg := by
  refine ⟨rfl, ?_, ?_⟩
  · rw [run_target_of_run ghostEnv "sleep 1" (some "ghost:0.0") none none none rfl]
    simp [run_target_and_session, truthyOpt]
  · intro msg h
    simp [tmux_run, ghostEnv] at h

/-- C1 (amended): a run with an explicit target performs no existence
check on it: whenever the runner script is present, the launch proceeds —
the runner is spawned with the explicit target verbatim — whether or not
the target references an existing pane, and no invalid-target failure is
produced before the spawn; the only pre-spawn failure is the missing
runner script. -/
theorem run_explicit_target_spawns (e : RunEnv) (cmd tv : String)
    (s w : Option String) (p : Option Int)
    (hjob : e.jobRunExists = true) (htv : tv ≠ "") :
    ∃ r, tmux_run e cmd (some tv) s w p = Except.ok r
      ∧ r.target = tv ∧ r.spawnedCmd = cmd := by
  refine ⟨tmux_run_result e cmd (some tv) s w p, by simp [tmux_run, hjob], ?_, rfl⟩
  simp [tmux_run_result, run_target_and_session, truthyOpt, htv]

/-- Witness for the amended C1: the same non-existent explicit target as
the counterexample still spawns the runner. -/
theorem run_explicit_target_spawns_witness :
    ∃ r, tmux_run ghostEnv "sleep 1" (some "nope:9.9") none none none
      = Except.ok r ∧ r.target = "nope:9.9" ∧ r.spawnedCmd = "sleep 1" :=
  run_explicit_target_spawns ghostEnv "sleep 1" "nope:9.9" none none none
    rfl (by decide)

theorem append_mcp_log_ne (cwd : String) : cwd ++ "/mcp_log" ≠ "" := by
  intro h
  have hd : (cwd ++ "/mcp_log").data = ("" : String).data := congrArg String.data h
  rw [String.data_append] at hd
  have h2 : ("/mcp_log" : String).data ≠ [] := by decide
  rcases List.append_eq_nil.mp hd with ⟨-, h3⟩
  exact h2 h3

theorem run_log_path_of_run (e : RunEnv) (cmd : String) (t s w : Option String)
    (p : Option Int) (hjob : e.jobRunExists = true) :
    run_log_path_of (tmux_run e cmd t s w p)
      = some (predict_base_log_dir e.repoLogDir e.homeLogDir
            (log_dir_guess e (run_target_and_session e t s w p).1)
          ++ "/" ++ new_token e.year e.month e.day e.hour e.minute e.second
            e.randBytes
          ++ ".log") := by
  simp [tmux_run, hjob, run_log_path_of, tmux_run_result]

/-- C5: when the run operation predicts the log path for a launch, it
prefers `<target-pane-cwd>/mcp_log/<token>.log` from the multiplexer query
for the resolved target pane's current path; if that lookup fails, it
falls back to the first directory of the same ordered candidate list used
by `_job_log_path`, which is exactly what `_job_log_path` resolves for a
token whose log does not yet exist in any candidate directory. -/
theorem run_log_path_prediction (e : RunEnv) (cmd : String)
    (t s w : Option String) (p : Option Int)
    (hjob : e.jobRunExists = true) (hrepo : e.repoLogDir ≠ "")
    (lfe : String → String → Bool)
    (hnew : ∀ d, lfe d (new_token e.year e.month e.day e.hour e.minute
      e.second e.randBytes) = false) :
    (∀ cwd, (run_target_and_session e t s w p).1 ≠ "" →
        e.paneCwd (run_target_and_session e t s w p).1 = some cwd → cwd ≠ "" →
      run_log_path_of (tmux_run e cmd t s w p)
        = some ((cwd ++ "/mcp_log") ++ "/"
            ++ new_token e.year e.month e.day e.hour e.minute e.second
              e.randBytes
            ++ ".log"))
    ∧ (((run_target_and_session e t s w p).1 = ""
          ∨ e.paneCwd (run_target_and_session e t s w p).1 = none
          ∨ e.paneCwd (run_target_and_session e t s w p).1 = some "") →
      run_log_path_of (tmux_run e cmd t s w p)
        = some (job_log_path e.repoLogDir e.envLogDir e.homeLogDir lfe
            (new_token e.year e.month e.day e.hour e.minute e.second
              e.randBytes))) := by
  have hof := run_log_path_of_run e cmd t s w p hjob
  constructor
  · intro cwd htp hcwd hcwdne
    rw [hof]
    have hg : log_dir_guess e (run_target_and_session e t s w p).1
        = some (cwd ++ "/mcp_log") := by
      simp [log_dir_guess, htp, hcwd, hcwdne]
    rw [hg]
    rw [show predict_base_log_dir e.repoLogDir e.homeLogDir
        (some (cwd ++ "/mcp_log")) = cwd ++ "/mcp_log" by
      simp [predict_base_log_dir, truthyOpt_some_ne (append_mcp_log_ne cwd)]]
  · intro hfail
    rw [hof]
    have hg : log_dir_guess e (run_target_and_session e t s w p).1 = none := by
      rcases hfail with h | h | h
      · simp [log_dir_guess, h]
      · simp [log_dir_guess, h]
      · by_cases htp : (run_target_and_session e t s w p).1 = ""
        · simp [log_dir_guess, htp]
        · simp [log_dir_guess, htp, h]
    rw [hg]
    have hfind : (candidate_log_dirs e.repoLogDir e.envLogDir
        e.homeLogDir).find? (fun d => lfe d (new_token e.year e.month e.day
          e.hour e.minute e.second e.randBytes)) = none :=
      List.find?_eq_none.mpr (fun d _ => by simp [hnew d])
    simp only [job_log_path]
    rw [hfind]
    simp [predict_base_log_dir, truthyOpt, hrepo, candidate_log_dirs]

/-- Witness for C5: with the pane's working directory reported as
`/work/proj`, the predicted log path is `/work/proj/mcp_log/<token>.log`. -/
theorem run_log_path_prediction_witness :
    run_log_path_of (tmux_run cwdEnv "make" (some "dev:1.0") none none none)
      = some ((("/work/proj" : String) ++ "/mcp_log") ++ "/"
          ++ new_token 2025 10 12 3 4 5 [26, 255, 0] ++ ".log") :=
  (run_log_path_prediction cwdEnv "make" (some "dev:1.0") none none none rfl
      (by decide) (fun _ _ => false) (fun _ => rfl)).1
    "/work/proj" (by decide) rfl (by decide)

/-- C10: a saved-default file whose content is empty or whitespace-only
reads as nothing, and a run without explicit target or session arguments
resolves exactly as if the file were absent (the saved-default tier is
skipped and the auto-session heuristic proceeds). -/
theorem read_target_blank_like_absent (e : RunEnv) (cmd : String)
    (w : Option String) (p : Option Int) (c : String)
    (hc : pyStrip c = "") :
    read_target (some c) = none
    ∧ tmux_run { e with savedFile := some c } cmd none none w p
      = tmux_run { e with savedFile := none } cmd none none w p := by
  have h1 : read_target (some c) = none := by simp [read_target, hc]
  refine ⟨h1, ?_⟩
  have h2 : resolve_pane_target { e with savedFile := some c }
      = resolve_pane_target { e with savedFile := none } := by
    simp [resolve_pane_target, read_target, hc]
  simp [tmux_run, tmux_run_result, run_target_and_session, notify_pane,
    exec_session_name, log_dir_guess, h2]

/-- Witness for C10 with a whitespace-only saved file. -/
theorem read_target_blank_like_absent_witness :
    read_target (some "  \n ") = none
    ∧ tmux_run { ghostEnv with savedFile := some "  \n " } "ls" none none
        none none
      = tmux_run { ghostEnv with savedFile := none } "ls" none none
        none none :=
  read_target_blank_like_absent ghostEnv "ls" none none "  \n " (by decide)

end Agentd
